import Mathlib

/-!
Verification of `3-Day_Context_Engineering/Agent.py`: a shallow embedding of
the script's own logic (credential loading, session-service selection, the
`run_session` query loop, the state tools, and the four demo routines) as
pure Lean functions, with theorems checking the specification's claims.

The external ADK/Gemini SDK is abstracted: a `Runner` is a function from a
message to the list of streamed events, and a `SessionService` is a pair of
create/get functions that may fail, exactly the interface the script uses.
-/

namespace AgentScript

/-- Global configuration constant `APP_NAME = "default"` (Agent.py line 38). -/
def APP_NAME : String := "default"

/-- Global configuration constant `USER_ID = "default"` (Agent.py line 39). -/
def USER_ID : String := "default"

/-- Global configuration constant `MODEL_NAME` (Agent.py line 40). -/
def MODEL_NAME : String := "gemini-2.5-flash-lite"

/-- `google.genai.types.Part`: a content part whose `text` may be absent
(Python `None`). -/
structure Part where
  text : Option String
deriving DecidableEq

/-- `google.genai.types.Content`: a role plus an optional list of parts. -/
structure Content where
  role : Option String
  parts : Option (List Part)
deriving DecidableEq

/-- An event streamed by `runner.run_async`; its `content` may be absent. -/
structure Event where
  content : Option Content
deriving DecidableEq

/-- An ADK session as used by the script: only its `id` is read. -/
structure Session where
  id : String
deriving DecidableEq

/-- The runner interface the script uses: an `app_name` attribute and
`run_async(user_id, session_id, new_message)` returning streamed events. -/
structure Runner where
  app_name : String
  run_async : String → String → Content → List Event

/-- The session-service interface the script uses: `create_session` may raise
(modelled as `Except.error`), `get_session` may return `None`. -/
structure SessionService where
  create_session : String → String → String → Except String Session
  get_session : String → String → String → Option Session

/-- The type of the `user_queries` argument of `run_session`:
`list[str] | str = None`. -/
inductive Queries where
  | none
  | str (s : String)
  | list (xs : List String)
deriving DecidableEq

/-- Observable actions of `run_session`: console prints, session-service
calls, and messages sent to the runner. -/
inductive Action where
  | print (line : String)
  | createSession (app_name user_id session_id : String)
  | getSession (app_name user_id session_id : String)
  | send (user_id session_id : String) (message : Content)
deriving DecidableEq

/-- The for-loop accumulation of action lists. -/
def concatMap (f : α → List β) : List α → List β
  | [] => []
  | a :: as => f a ++ concatMap f as

/-- The `if user_queries and isinstance(user_queries, str)` conversion
(Agent.py lines 61-62): a truthy (non-empty) string becomes a one-element
list; everything else is unchanged. -/
def convertQueries : Queries → Queries
  | .str s => if s = "" then .str s else .list [s]
  | q => q

/-- Lines 51-58 of Agent.py: try `create_session`; on any exception fall back
to `get_session` with the same app name, user id and session id. Returns the
resolved session (if any) and the session-service actions performed. -/
def resolveSession (svc : SessionService) (app_name session_name : String) :
    Option Session × List Action :=
  match svc.create_session app_name USER_ID session_name with
  | .ok s => (Option.some s, [Action.createSession app_name USER_ID session_name])
  | .error _ =>
      (svc.get_session app_name USER_ID session_name,
       [Action.createSession app_name USER_ID session_name,
        Action.getSession app_name USER_ID session_name])

/-- Lines 77-80 of Agent.py: for one streamed event, if `event.content` and
`event.content.parts` are truthy, take `parts[0].text` and print it unless it
is falsy (`None` / empty) or the literal string `"None"`. -/
def eventPrints (event : Event) : List Action :=
  match event.content with
  | Option.some c =>
      match c.parts with
      | Option.some (p :: _) =>
          match p.text with
          | Option.some response =>
              if response = "" ∨ response = "None" then []
              else [Action.print (MODEL_NAME ++ " > " ++ response)]
          | Option.none => []
      | _ => []
  | Option.none => []

/-- Lines 69-80 of Agent.py, one iteration of the query loop: print the user
query, wrap it as a `Content` with role `"user"` and a single text part, send
it via `run_async`, and print the streamed replies. -/
def runQuery (runner_instance : Runner) (session : Session) (query : String) :
    List Action :=
  let content : Content :=
    { role := Option.some "user", parts := Option.some [{ text := Option.some query }] }
  Action.print ("\nUser > " ++ query) ::
  Action.send USER_ID session.id content ::
  concatMap eventPrints (runner_instance.run_async USER_ID session.id content)

/-- Lines 43-80 of Agent.py: `run_session`. Prints the session header,
creates or gets the session, normalises the queries, and either reports
`"No queries provided."` or runs the query loop. The error case models the
`AttributeError` Python would raise on `session.id` when the session is
`None`. -/
def run_session (svc : SessionService) (runner_instance : Runner)
    (user_queries : Queries) (session_name : String) :
    Except String (List Action) :=
  let header := Action.print ("\n ### Session: " ++ session_name)
  let res := resolveSession svc runner_instance.app_name session_name
  match convertQueries user_queries with
  | .list (q :: qs) =>
      match res.1 with
      | Option.some session =>
          .ok (header :: res.2 ++ concatMap (runQuery runner_instance session) (q :: qs))
      | Option.none => .error "AttributeError: session is None"
  | _ => .ok (header :: res.2 ++ [Action.print "No queries provided."])

/-- `types.HttpRetryOptions` as configured at Agent.py lines 30-35. -/
structure HttpRetryOptions where
  attempts : Nat
  exp_base : Nat
  initial_delay : Nat
  http_status_codes : List Nat
deriving DecidableEq

/-- The retry configuration record (Agent.py lines 30-35). -/
def retry_config : HttpRetryOptions :=
  { attempts := 5
    exp_base := 7
    initial_delay := 1
    http_status_codes := [429, 500, 503, 504] }

/-- `google.adk.models.google_llm.Gemini` as constructed by the script: a
model identifier and retry options. -/
structure Gemini where
  model : String
  retry_options : HttpRetryOptions
deriving DecidableEq

/-- The two tool functions that can be attached to an agent. -/
inductive ToolRef where
  | saveUserinfo
  | retrieveUserinfo
deriving DecidableEq

/-- `LlmAgent` (and its alias `Agent`) as constructed by the script. -/
structure LlmAgent where
  model : Gemini
  name : String
  description : String
  tools : List ToolRef
deriving DecidableEq

/-- In the ADK, `Agent` is `LlmAgent`. -/
abbrev Agent := LlmAgent

/-- `EventsCompactionConfig` as configured at Agent.py lines 150-152. -/
structure EventsCompactionConfig where
  compaction_interval : Nat
  overlap_size : Nat
deriving DecidableEq

/-- `google.adk.apps.app.App` as constructed at Agent.py lines 147-153. -/
structure App where
  name : String
  root_agent : LlmAgent
  events_compaction_config : EventsCompactionConfig
deriving DecidableEq

/-- The session store a demo assigns to the global `session_service`:
`InMemorySessionService()` or `DatabaseSessionService(db_url=...)`. -/
inductive SessionServiceConfig where
  | inMemory
  | database (db_url : String)
deriving DecidableEq

/-- The constructions and calls a demo routine performs, in program order. -/
inductive DemoStep where
  | print (line : String)
  | mkAgent (agent : LlmAgent)
  | setSessionService (config : SessionServiceConfig)
  | mkApp (app : App)
  | mkRunner (app_name : String) (service : SessionServiceConfig)
  | mkRunnerFromApp (app : App) (service : SessionServiceConfig)
  | callRunSession (queries : Queries) (session_name : String)
deriving DecidableEq

/-- The agent built by `in_memory_session_demo` (Agent.py lines 86-90). -/
def in_memory_agent : Agent :=
  { model := { model := MODEL_NAME, retry_options := retry_config }
    name := "text_chat_bot"
    description := "A simple text chatbot."
    tools := [] }

/-- `in_memory_session_demo` (Agent.py lines 83-103) as its step trace. -/
def in_memory_session_demo : List DemoStep :=
  [ .print "\n🚀 Running In-Memory Session Demo..."
  , .mkAgent in_memory_agent
  , .setSessionService .inMemory
  , .mkRunner APP_NAME .inMemory
  , .callRunSession
      (.list [ "Hi, I am Sam! What is the capital of the United States?"
             , "Hello! What is my name?" ])
      "stateful-agentic-session" ]

/-- The agent built by `persistent_session_demo` (Agent.py lines 109-113). -/
def persistent_agent : LlmAgent :=
  { model := { model := MODEL_NAME, retry_options := retry_config }
    name := "text_chat_bot"
    description := "A chatbot with persistent memory."
    tools := [] }

/-- `persistent_session_demo` (Agent.py lines 106-134) as its step trace. -/
def persistent_session_demo : List DemoStep :=
  [ .print "\n💾 Running Persistent Database Session Demo..."
  , .mkAgent persistent_agent
  , .setSessionService (.database "sqlite:///my_agent_data.db")
  , .mkRunner APP_NAME (.database "sqlite:///my_agent_data.db")
  , .callRunSession
      (.list [ "Hi, I am Sam! What is the capital of the United States?"
             , "Hello! What is my name?" ])
      "test-db-session-01"
  , .callRunSession
      (.list [ "What is the capital of India?", "What is my name?" ])
      "test-db-session-01" ]

/-- The agent built by `context_compaction_demo` (Agent.py lines 141-145). -/
def compaction_agent : LlmAgent :=
  { model := { model := MODEL_NAME, retry_options := retry_config }
    name := "text_chat_bot"
    description := "A chatbot with context compaction."
    tools := [] }

/-- The `App` built by `context_compaction_demo` (Agent.py lines 147-153). -/
def research_app : App :=
  { name := "research_app_compacting"
    root_agent := compaction_agent
    events_compaction_config := { compaction_interval := 3, overlap_size := 1 } }

/-- `context_compaction_demo` (Agent.py lines 138-166) as its step trace. -/
def context_compaction_demo : List DemoStep :=
  [ .print "\n🧠 Running Context Compaction Demo..."
  , .mkAgent compaction_agent
  , .mkApp research_app
  , .setSessionService (.database "sqlite:///my_agent_data.db")
  , .mkRunnerFromApp research_app (.database "sqlite:///my_agent_data.db")
  , .callRunSession (.str "What is the latest news about AI in healthcare?") "compaction_demo"
  , .callRunSession (.str "Are there any new developments in drug discovery?") "compaction_demo"
  , .callRunSession (.str "Tell me more about drug discovery.") "compaction_demo"
  , .callRunSession (.str "Who are the main companies in this field?") "compaction_demo" ]

/-- The agent built by `session_state_demo` (Agent.py lines 185-190), with
the two state tools attached. -/
def session_state_agent : LlmAgent :=
  { model := { model := MODEL_NAME, retry_options := retry_config }
    name := "text_chat_bot"
    description := "A chatbot with session state management."
    tools := [.saveUserinfo, .retrieveUserinfo] }

/-- `session_state_demo` (Agent.py lines 182-204) as its step trace. -/
def session_state_demo : List DemoStep :=
  [ .print "\n👤 Running Session State Demo..."
  , .mkAgent session_state_agent
  , .setSessionService .inMemory
  , .mkRunner APP_NAME .inMemory
  , .callRunSession
      (.list [ "Hi there, what is my name?"
             , "My name is Sam. I\x27m from Poland."
             , "What is my name? Which country am I from?" ])
      "state-demo-session" ]

/-- The four demo routines. -/
inductive DemoName where
  | inMemoryDemo
  | persistentDemo
  | compactionDemo
  | sessionStateDemo
deriving DecidableEq

/-- The step trace of each demo routine. -/
def demoSteps : DemoName → List DemoStep
  | .inMemoryDemo => in_memory_session_demo
  | .persistentDemo => persistent_session_demo
  | .compactionDemo => context_compaction_demo
  | .sessionStateDemo => session_state_demo

/-- The `__main__` block (Agent.py lines 208-212): the four demos in the
order they are passed to `asyncio.run`. -/
def main_demos : List DemoName :=
  [.inMemoryDemo, .persistentDemo, .compactionDemo, .sessionStateDemo]

/-- The full step trace of `__main__`: `asyncio.run` blocks, so each demo's
steps all occur before the next demo starts. -/
def main_trace : List DemoStep :=
  concatMap demoSteps main_demos

/-- Outcome of the module-level credential block (Agent.py lines 19-27). -/
structure CredOutcome where
  exited : Bool
  printed_line : String
  env_set : Option String
deriving DecidableEq

/-- The message printed when the key is missing: `" Authentication Error: "`
followed by the `ValueError` text raised at Agent.py line 22. -/
def auth_error_message : String :=
  " Authentication Error: Gemini API Key not found in .env file."

/-- Agent.py lines 19-27: read `GOOGLE_API_KEY` from the environment (after
`load_dotenv`); if absent or empty, print the authentication error and exit;
otherwise store the key back into `os.environ` and print the completion
message. -/
def credential_setup (getenv : String → Option String) : CredOutcome :=
  match getenv "GOOGLE_API_KEY" with
  | Option.none =>
      { exited := true, printed_line := auth_error_message, env_set := Option.none }
  | Option.some k =>
      if k = "" then
        { exited := true, printed_line := auth_error_message, env_set := Option.none }
      else
        { exited := false
          printed_line := " Gemini API key setup complete."
          env_set := Option.some k }

/-- Executing the script as `__main__`: the credential block runs first; if
it exits, no demo (hence no agent, session service, or runner construction)
runs; otherwise the four demos run in order. -/
def script_main (getenv : String → Option String) : CredOutcome × List DemoName :=
  let c := credential_setup getenv
  if c.exited then (c, []) else (c, main_demos)

/-- The `tool_context.state` mapping: keys to string values. -/
def ToolState := String → Option String

/-- `tool_context.state[key] = value`. -/
def ToolState.set (state : ToolState) (key value : String) : ToolState :=
  fun k => if k = key then Option.some value else state k

/-- `save_userinfo` (Agent.py lines 170-173): store the two `user:` keys and
return `{"status": "success"}`. Returns the updated state and the result
dictionary. -/
def save_userinfo (tool_state : ToolState) (user_name country : String) :
    ToolState × List (String × String) :=
  let s1 := ToolState.set tool_state "user:name" user_name
  let s2 := ToolState.set s1 "user:country" country
  (s2, [("status", "success")])

/-- `retrieve_userinfo` (Agent.py lines 176-179): read the two `user:` keys
with default `"Unknown"` and return them as a dictionary. -/
def retrieve_userinfo (tool_state : ToolState) : List (String × String) :=
  let user_name := (tool_state "user:name").getD "Unknown"
  let country := (tool_state "user:country").getD "Unknown"
  [("user_name", user_name), ("country", country)]

/-- The session-service selections a demo performs, in order. -/
def serviceSets (steps : List DemoStep) : List SessionServiceConfig :=
  steps.filterMap fun s =>
    match s with
    | .setSessionService c => Option.some c
    | _ => Option.none

/-- The session services passed to runner constructions, in order. -/
def runnerServices (steps : List DemoStep) : List SessionServiceConfig :=
  steps.filterMap fun s =>
    match s with
    | .mkRunner _ c => Option.some c
    | .mkRunnerFromApp _ c => Option.some c
    | _ => Option.none

/-- Whether a step selects the global session service. -/
def isServiceSelect : DemoStep → Bool
  | .setSessionService _ => true
  | _ => false

/-- Whether a step constructs a runner. -/
def isRunnerBuild : DemoStep → Bool
  | .mkRunner _ _ => true
  | .mkRunnerFromApp _ _ => true
  | _ => false

/-- The `run_session` calls a demo performs, in order. -/
def runCalls (steps : List DemoStep) : List (Queries × String) :=
  steps.filterMap fun s =>
    match s with
    | .callRunSession q n => Option.some (q, n)
    | _ => Option.none

/-- The apps a demo constructs, in order. -/
def appsBuilt (steps : List DemoStep) : List App :=
  steps.filterMap fun s =>
    match s with
    | .mkApp a => Option.some a
    | _ => Option.none

/-- The agents a demo constructs, in order. -/
def agentsBuilt (steps : List DemoStep) : List LlmAgent :=
  steps.filterMap fun s =>
    match s with
    | .mkAgent a => Option.some a
    | _ => Option.none

/-- The session ids of the messages sent to the runner in an action trace. -/
def sentSessionIds (acts : List Action) : List String :=
  acts.filterMap fun a =>
    match a with
    | .send _ session_id _ => Option.some session_id
    | _ => Option.none

/-- `sentSessionIds` of a `run_session` result (empty on error). -/
def sentOf (result : Except String (List Action)) : List String :=
  match result with
  | .ok acts => sentSessionIds acts
  | .error _ => []

/-- A session service whose `create_session` always succeeds, returning a
session whose id is the requested session id (as the ADK services do). -/
def svcOK : SessionService :=
  { create_session := fun _ _ session_id => .ok { id := session_id }
    get_session := fun _ _ session_id => Option.some { id := session_id } }

/-- A session service whose `create_session` always raises (the session
already exists) and whose `get_session` returns the existing session. -/
def svcFail : SessionService :=
  { create_session := fun _ _ _ => .error "session already exists"
    get_session := fun _ _ session_id => Option.some { id := session_id } }

/-- A runner that streams no events. -/
def runnerSilent : Runner :=
  { app_name := APP_NAME, run_async := fun _ _ _ => [] }

/-- A runner that streams four events: a normal text reply, a `"None"` text,
an empty text, and an event without content. -/
def runner0 : Runner :=
  { app_name := APP_NAME
    run_async := fun _ _ _ =>
      [ { content := Option.some
            { role := Option.some "model"
              parts := Option.some [{ text := Option.some "hi" }] } }
      , { content := Option.some
            { role := Option.some "model"
              parts := Option.some [{ text := Option.some "None" }] } }
      , { content := Option.some
            { role := Option.some "model"
              parts := Option.some [{ text := Option.some "" }] } }
      , { content := Option.none } ] }

/-- The empty tool-context state. -/
def emptyState : ToolState := fun _ => Option.none

/-- An environment without the API key. -/
def getenvMissing : String → Option String := fun _ => Option.none

/-- An environment with `GOOGLE_API_KEY` set to `"test-key"`. -/
def getenvSet : String → Option String :=
  fun k => if k = "GOOGLE_API_KEY" then Option.some "test-key" else Option.none

/-! Helper lemmas about the action traces. -/

/-- `resolveSession` performs either just the create call, or the create call
followed by the get fallback. -/
theorem resolveSession_acts (svc : SessionService) (a n : String) :
    (resolveSession svc a n).2 = [Action.createSession a USER_ID n] ∨
    (resolveSession svc a n).2 =
      [Action.createSession a USER_ID n, Action.getSession a USER_ID n] := by
  unfold resolveSession
  cases h : svc.create_session a USER_ID n <;> simp [h]

/-- A print action contributes no sent session id. -/
theorem sentSessionIds_cons_print (s : String) (l : List Action) :
    sentSessionIds (Action.print s :: l) = sentSessionIds l := rfl

/-- A create-session action contributes no sent session id. -/
theorem sentSessionIds_cons_create (a u n : String) (l : List Action) :
    sentSessionIds (Action.createSession a u n :: l) = sentSessionIds l := rfl

/-- A get-session action contributes no sent session id. -/
theorem sentSessionIds_cons_get (a u n : String) (l : List Action) :
    sentSessionIds (Action.getSession a u n :: l) = sentSessionIds l := rfl

/-- A send action contributes its session id. -/
theorem sentSessionIds_cons_send (u sid : String) (m : Content) (l : List Action) :
    sentSessionIds (Action.send u sid m :: l) = sid :: sentSessionIds l := rfl

/-- `sentSessionIds` of the empty trace. -/
theorem sentSessionIds_nil : sentSessionIds [] = [] := rfl

/-- `sentSessionIds` distributes over append. -/
theorem sentSessionIds_append (l1 l2 : List Action) :
    sentSessionIds (l1 ++ l2) = sentSessionIds l1 ++ sentSessionIds l2 := by
  simp [sentSessionIds, List.filterMap_append]

/-- The per-event reply printing sends nothing. -/
theorem sentSessionIds_eventPrints (e : Event) : sentSessionIds (eventPrints e) = [] := by
  rcases e with ⟨c⟩
  rcases c with _ | ⟨role, parts⟩
  · rfl
  rcases parts with _ | ps
  · rfl
  rcases ps with _ | ⟨p, rest⟩
  · rfl
  rcases p with ⟨t⟩
  rcases t with _ | response
  · rfl
  by_cases h : response = "" ∨ response = "None"
  · simp [eventPrints, h, sentSessionIds]
  · simp [eventPrints, h, sentSessionIds]

/-- Printing streamed replies for a whole event list sends nothing. -/
theorem sentSessionIds_concat_eventPrints (es : List Event) :
    sentSessionIds (concatMap eventPrints es) = [] := by
  induction es with
  | nil => rfl
  | cons e es ih =>
      simp [concatMap, sentSessionIds_append, sentSessionIds_eventPrints, ih]

/-- One iteration of the query loop sends exactly one message, addressed to
the resolved session's id. -/
theorem sentSessionIds_runQuery (r : Runner) (s : Session) (q : String) :
    sentSessionIds (runQuery r s q) = [s.id] := by
  simp [runQuery, sentSessionIds_cons_print, sentSessionIds_cons_send,
        sentSessionIds_concat_eventPrints]

/-! The claim theorems. -/

/-- C1: for every runner and every non-empty list of queries (given the
session resolves), `run_session` prints each query and sends it to the runner
in list order, wrapped as a `Content` with role `"user"` and a single text
part equal to the query, and for each streamed event whose content has a
non-empty parts list it prints the text of the first part, suppressing absent
text, empty text, and the literal string `"None"`. -/
theorem run_session_streams_queries (svc : SessionService) (r : Runner)
    (session_name q : String) (qs : List String) (session : Session) (acts : List Action)
    (h : resolveSession svc r.app_name session_name = (Option.some session, acts)) :
    run_session svc r (Queries.list (q :: qs)) session_name =
      Except.ok (Action.print ("\n ### Session: " ++ session_name) :: acts ++
        concatMap (fun query =>
          Action.print ("\nUser > " ++ query) ::
          Action.send USER_ID session.id
            { role := Option.some "user"
              parts := Option.some [{ text := Option.some query }] } ::
          concatMap (fun event =>
            match event.content with
            | Option.some c =>
                match c.parts with
                | Option.some (p :: _) =>
                    match p.text with
                    | Option.some response =>
                        if response = "" ∨ response = "None" then []
                        else [Action.print (MODEL_NAME ++ " > " ++ response)]
                    | Option.none => []
                | _ => []
            | Option.none => [])
            (r.run_async USER_ID session.id
              { role := Option.some "user"
                parts := Option.some [{ text := Option.some query }] }))
          (q :: qs)) := by
  simp only [run_session, h, convertQueries]
  rfl

/-- C1 witness: one query against a concrete service and a runner streaming
a normal reply, a `"None"` reply, an empty reply, and a contentless event;
only the normal reply is printed. -/
theorem run_session_streams_queries_witness :
    run_session svcOK runner0 (Queries.list ["ping"]) "w" =
      Except.ok [ Action.print "\n ### Session: w"
                , Action.createSession "default" "default" "w"
                , Action.print "\nUser > ping"
                , Action.send "default" "w"
                    { role := Option.some "user"
                      parts := Option.some [{ text := Option.some "ping" }] }
                , Action.print "gemini-2.5-flash-lite > hi" ] := by
  exact run_session_streams_queries svcOK runner0 "w" "ping" [] { id := "w" }
    [Action.createSession APP_NAME USER_ID "w"] (by rfl)

/-- C2: the credential loader reads `GOOGLE_API_KEY`; on an absent or empty
key it prints the authentication error and exits so no demo (hence no agent,
session service or runner construction) runs, and otherwise it stores the key
back into the environment, prints the completion message, and the demos
proceed. -/
theorem credential_check (getenv : String → Option String) (k : String) :
    (getenv "GOOGLE_API_KEY" = Option.none →
       credential_setup getenv =
         { exited := true, printed_line := auth_error_message, env_set := Option.none }
       ∧ (script_main getenv).2 = [])
    ∧ (getenv "GOOGLE_API_KEY" = Option.some "" →
       credential_setup getenv =
         { exited := true, printed_line := auth_error_message, env_set := Option.none }
       ∧ (script_main getenv).2 = [])
    ∧ (getenv "GOOGLE_API_KEY" = Option.some k → k ≠ "" →
       credential_setup getenv =
         { exited := false
           printed_line := " Gemini API key setup complete."
           env_set := Option.some k }
       ∧ (script_main getenv).2 = main_demos) := by
  refine ⟨?_, ?_, ?_⟩
  · intro h
    constructor <;> simp [credential_setup, script_main, h]
  · intro h
    constructor <;> simp [credential_setup, script_main, h]
  · intro h hk
    constructor <;> simp [credential_setup, script_main, h, hk]

/-- C2 witness: with no key the loader exits with the authentication error;
with a key set the four demos run. -/
theorem credential_check_witness :
    credential_setup getenvMissing =
      { exited := true, printed_line := auth_error_message, env_set := Option.none }
    ∧ (script_main getenvSet).2 = main_demos := by
  exact ⟨((credential_check getenvMissing "").1 (by rfl)).1,
         ((credential_check getenvSet "test-key").2.2 (by rfl) (by decide)).2⟩

/-- C3: the retry policy is the fixed record with attempts 5, exponent base
7, initial delay 1 and retried status codes 429, 500, 503, 504, and every one
of the four demos passes exactly this record as the retry options of its
Gemini model constructor. -/
theorem retry_config_fixed :
    retry_config =
      { attempts := 5, exp_base := 7, initial_delay := 1
        http_status_codes := [429, 500, 503, 504] }
    ∧ in_memory_agent.model = { model := MODEL_NAME, retry_options := retry_config }
    ∧ persistent_agent.model = { model := MODEL_NAME, retry_options := retry_config }
    ∧ compaction_agent.model = { model := MODEL_NAME, retry_options := retry_config }
    ∧ session_state_agent.model = { model := MODEL_NAME, retry_options := retry_config }
    ∧ agentsBuilt main_trace =
        [in_memory_agent, persistent_agent, compaction_agent, session_state_agent] :=
  ⟨rfl, rfl, rfl, rfl, rfl, rfl⟩

/-- C4: each demo selects exactly one session store, before constructing its
runner: the in-memory and session-state demos select the in-memory service,
the persistent and compaction demos select the database service backed by
`sqlite:///my_agent_data.db`, and the runner is constructed with the
selected store. -/
theorem demo_session_store_selection :
    serviceSets in_memory_session_demo = [SessionServiceConfig.inMemory]
    ∧ serviceSets session_state_demo = [SessionServiceConfig.inMemory]
    ∧ serviceSets persistent_session_demo =
        [SessionServiceConfig.database "sqlite:///my_agent_data.db"]
    ∧ serviceSets context_compaction_demo =
        [SessionServiceConfig.database "sqlite:///my_agent_data.db"]
    ∧ runnerServices in_memory_session_demo = [SessionServiceConfig.inMemory]
    ∧ runnerServices session_state_demo = [SessionServiceConfig.inMemory]
    ∧ runnerServices persistent_session_demo =
        [SessionServiceConfig.database "sqlite:///my_agent_data.db"]
    ∧ runnerServices context_compaction_demo =
        [SessionServiceConfig.database "sqlite:///my_agent_data.db"]
    ∧ List.findIdx isServiceSelect in_memory_session_demo <
        List.findIdx isRunnerBuild in_memory_session_demo
    ∧ List.findIdx isServiceSelect session_state_demo <
        List.findIdx isRunnerBuild session_state_demo
    ∧ List.findIdx isServiceSelect persistent_session_demo <
        List.findIdx isRunnerBuild persistent_session_demo
    ∧ List.findIdx isServiceSelect context_compaction_demo <
        List.findIdx isRunnerBuild context_compaction_demo := by
  refine ⟨rfl, rfl, rfl, rfl, rfl, rfl, rfl, rfl, ?_, ?_, ?_, ?_⟩ <;> decide

/-- C5: when executed as the main program (with a valid key), exactly the
four demos run, in the fixed order in-memory, persistent, compaction, session
state, and in the flattened execution trace each demo's steps all occur
before the next demo's. -/
theorem main_runs_four_demos (getenv : String → Option String) (k : String)
    (h1 : getenv "GOOGLE_API_KEY" = Option.some k) (h2 : k ≠ "") :
    (script_main getenv).2 =
      [DemoName.inMemoryDemo, DemoName.persistentDemo, DemoName.compactionDemo,
       DemoName.sessionStateDemo]
    ∧ main_trace =
        demoSteps DemoName.inMemoryDemo ++ demoSteps DemoName.persistentDemo ++
        demoSteps DemoName.compactionDemo ++ demoSteps DemoName.sessionStateDemo := by
  constructor
  · simp [script_main, credential_setup, h1, h2, main_demos]
  · simp [main_trace, main_demos, concatMap]

/-- C5 witness: with the key set, the four demos run in order. -/
theorem main_runs_four_demos_witness :
    (script_main getenvSet).2 =
      [DemoName.inMemoryDemo, DemoName.persistentDemo, DemoName.compactionDemo,
       DemoName.sessionStateDemo] :=
  (main_runs_four_demos getenvSet "test-key" (by rfl) (by decide)).1

/-- C6: `persistent_session_demo` calls `run_session` twice over the
database-backed store with the same session id `"test-db-session-01"`, two
queries per call, and for any service resolving that id to a session `s`,
both batches are sent to `s.id` — the second batch addresses the same stored
conversation as the first. -/
theorem persistent_demo_two_calls_same_session :
    runCalls persistent_session_demo =
      [ (Queries.list [ "Hi, I am Sam! What is the capital of the United States?"
                      , "Hello! What is my name?" ], "test-db-session-01")
      , (Queries.list [ "What is the capital of India?", "What is my name?" ]
        , "test-db-session-01") ]
    ∧ (∀ (svc : SessionService) (r : Runner) (s : Session) (acts : List Action),
        resolveSession svc r.app_name "test-db-session-01" = (Option.some s, acts) →
        sentOf (run_session svc r
            (Queries.list [ "Hi, I am Sam! What is the capital of the United States?"
                          , "Hello! What is my name?" ]) "test-db-session-01")
          = [s.id, s.id]
        ∧ sentOf (run_session svc r
            (Queries.list [ "What is the capital of India?", "What is my name?" ])
            "test-db-session-01")
          = [s.id, s.id]) := by
  constructor
  · rfl
  · intro svc r s acts h
    have hacts := resolveSession_acts svc r.app_name "test-db-session-01"
    rw [h] at hacts
    simp only at hacts
    constructor <;>
      rcases hacts with h2 | h2 <;>
        simp [run_session, h, h2, convertQueries, sentOf, concatMap,
              sentSessionIds_cons_print, sentSessionIds_cons_create,
              sentSessionIds_cons_get, sentSessionIds_append, sentSessionIds_runQuery,
              sentSessionIds_nil]

/-- C6 witness: the second batch against a concrete database-like service
sends both messages to the session `"test-db-session-01"`. -/
theorem persistent_demo_two_calls_same_session_witness :
    sentOf (run_session svcOK runnerSilent
        (Queries.list [ "What is the capital of India?", "What is my name?" ])
        "test-db-session-01")
      = ["test-db-session-01", "test-db-session-01"] := by
  exact ((persistent_demo_two_calls_same_session.2 svcOK runnerSilent
    { id := "test-db-session-01" }
    [Action.createSession APP_NAME USER_ID "test-db-session-01"] (by rfl)).2)

/-- C7: the compaction demo only configures compaction: it builds the single
app `"research_app_compacting"` with compaction interval 3 and overlap size
1, and that is the only `App` built anywhere in the script. -/
theorem compaction_config_only :
    appsBuilt context_compaction_demo = [research_app]
    ∧ research_app.name = "research_app_compacting"
    ∧ research_app.events_compaction_config =
        { compaction_interval := 3, overlap_size := 1 }
    ∧ research_app.root_agent = compaction_agent
    ∧ appsBuilt main_trace = [research_app] :=
  ⟨rfl, rfl, rfl, rfl, rfl⟩

/-- C8: if `create_session` raises, `run_session` falls back to
`get_session` with the same app name, user id and session id, and proceeds
with the queries against the fetched session, so a repeated call with the
same session name reuses the existing session instead of failing. -/
theorem run_session_create_fallback (svc : SessionService) (r : Runner)
    (session_name q : String) (qs : List String) (e : String) (s : Session)
    (hc : svc.create_session r.app_name USER_ID session_name = Except.error e)
    (hg : svc.get_session r.app_name USER_ID session_name = Option.some s) :
    run_session svc r (Queries.list (q :: qs)) session_name =
      Except.ok (Action.print ("\n ### Session: " ++ session_name) ::
        Action.createSession r.app_name USER_ID session_name ::
        Action.getSession r.app_name USER_ID session_name ::
        concatMap (runQuery r s) (q :: qs)) := by
  have hres : resolveSession svc r.app_name session_name =
      (Option.some s,
       [Action.createSession r.app_name USER_ID session_name,
        Action.getSession r.app_name USER_ID session_name]) := by
    unfold resolveSession
    rw [hc, hg]
  simp only [run_session, hres, convertQueries]
  rfl

/-- C8 witness: against a service whose create always raises, the queries
still run on the fetched session. -/
theorem run_session_create_fallback_witness :
    run_session svcFail runnerSilent (Queries.list ["q"]) "w" =
      Except.ok [ Action.print "\n ### Session: w"
                , Action.createSession "default" "default" "w"
                , Action.getSession "default" "default" "w"
                , Action.print "\nUser > q"
                , Action.send "default" "w"
                    { role := Option.some "user"
                      parts := Option.some [{ text := Option.some "q" }] } ] := by
  exact run_session_create_fallback svcFail runnerSilent "w" "q" []
    "session already exists" { id := "w" } (by rfl) (by rfl)

/-- C9: given no queries (`None`, the empty string, or the empty list),
`run_session` prints `"No queries provided."` and returns, and the resulting
trace contains no send action, so the runner is never invoked; and a single
non-empty string is handled exactly like the one-element list containing
it. -/
theorem run_session_empty_queries (svc : SessionService) (r : Runner)
    (session_name : String) :
    (run_session svc r Queries.none session_name =
       Except.ok (Action.print ("\n ### Session: " ++ session_name) ::
         (resolveSession svc r.app_name session_name).2 ++
         [Action.print "No queries provided."]))
    ∧ (run_session svc r (Queries.str "") session_name =
       Except.ok (Action.print ("\n ### Session: " ++ session_name) ::
         (resolveSession svc r.app_name session_name).2 ++
         [Action.print "No queries provided."]))
    ∧ (run_session svc r (Queries.list []) session_name =
       Except.ok (Action.print ("\n ### Session: " ++ session_name) ::
         (resolveSession svc r.app_name session_name).2 ++
         [Action.print "No queries provided."]))
    ∧ (∀ u sid m, Action.send u sid m ∉
         Action.print ("\n ### Session: " ++ session_name) ::
         (resolveSession svc r.app_name session_name).2 ++
         [Action.print "No queries provided."])
    ∧ (∀ s, s ≠ "" →
         run_session svc r (Queries.str s) session_name =
         run_session svc r (Queries.list [s]) session_name) := by
  refine ⟨rfl, rfl, rfl, ?_, ?_⟩
  · intro u sid m hmem
    rcases resolveSession_acts svc r.app_name session_name with h | h <;>
      rw [h] at hmem <;> simp at hmem
  · intro s hs
    simp [run_session, convertQueries, hs]

/-- C9 witness: no queries prints the message with no send; a non-empty
string equals its singleton list. -/
theorem run_session_empty_queries_witness :
    run_session svcOK runnerSilent Queries.none "w" =
      Except.ok [ Action.print "\n ### Session: w"
                , Action.createSession "default" "default" "w"
                , Action.print "No queries provided." ]
    ∧ run_session svcOK runnerSilent (Queries.str "hello") "w" =
      run_session svcOK runnerSilent (Queries.list ["hello"]) "w" := by
  have h := run_session_empty_queries svcOK runnerSilent "w"
  exact ⟨h.1, h.2.2.2.2 "hello" (by decide)⟩

/-- C10: `save_userinfo` writes exactly the keys `"user:name"` and
`"user:country"` (every other key is unchanged) and returns the success
status; `retrieve_userinfo` after it returns the saved pair; and on a state
missing either key, `retrieve_userinfo` returns `"Unknown"` for that
field. -/
theorem userinfo_state_roundtrip (st : ToolState) (user_name country : String) :
    (save_userinfo st user_name country).2 = [("status", "success")]
    ∧ retrieve_userinfo (save_userinfo st user_name country).1 =
        [("user_name", user_name), ("country", country)]
    ∧ (∀ k, k ≠ "user:name" → k ≠ "user:country" →
        (save_userinfo st user_name country).1 k = st k)
    ∧ (st "user:name" = Option.none →
        retrieve_userinfo st =
          [("user_name", "Unknown"), ("country", (st "user:country").getD "Unknown")])
    ∧ (st "user:country" = Option.none →
        retrieve_userinfo st =
          [("user_name", (st "user:name").getD "Unknown"), ("country", "Unknown")]) := by
  refine ⟨rfl, rfl, ?_, ?_, ?_⟩
  · intro k h1 h2
    simp [save_userinfo, ToolState.set, h1, h2]
  · intro h
    simp [retrieve_userinfo, h]
  · intro h
    simp [retrieve_userinfo, h]

/-- C10 witness: a save/retrieve round trip on the empty state, an untouched
key, and the `"Unknown"` defaults. -/
theorem userinfo_state_roundtrip_witness :
    retrieve_userinfo (save_userinfo emptyState "Sam" "Poland").1 =
      [("user_name", "Sam"), ("country", "Poland")]
    ∧ (save_userinfo emptyState "Sam" "Poland").1 "other" = emptyState "other"
    ∧ retrieve_userinfo emptyState = [("user_name", "Unknown"), ("country", "Unknown")] := by
  have h := userinfo_state_roundtrip emptyState "Sam" "Poland"
  exact ⟨h.2.1, h.2.2.1 "other" (by decide) (by decide),
         by simpa [emptyState] using h.2.2.2.1 (by rfl)⟩

end AgentScript
